import Mathlib

/-!
Verification of the authentication and authorization subsystem of a FastAPI
application (user accounts with e-mail-verification and password-reset tokens,
JWT access/refresh tokens, and an API-key based "authorized systems" layer).

The Lean definitions below are a shallow embedding of the Python source:

* `app/models/user.py`                       → `User`
* `app/services/user_service.py`             → `get_user_by_email`, `verify_email`,
  `reset_password`, `request_password_reset_for_email`,
  `request_new_email_verification_token`
* `app/core/security.py`                     → `create_access_token`,
  `create_refresh_token`, `decode_token`
* `app/core/dependencies.py`                 → `get_current_user`
* `app/routers/users.py`                     → `login_for_access_token`,
  `request_new_email_verification`, `request_password_reset`
* `app/routers/auth.py`                      → `refresh`
* `app/models/sistemas_autorizados.py`,
  `app/services/sistemas_autorizados_service.py`,
  `app/schemas/sistemas_autorizados_schemas.py` → the `SistemaAutorizado` model
  and its operations
* `app/utils/validadores.py` / `app/schemas/user.py` → the two CPF validators

Modelling conventions (stated once here, referenced by the doc comments):

* Timestamps (`datetime` values) are modelled as natural numbers; `a < b`
  mirrors Python's `<` on datetimes.
* The database session is modelled by explicit state passing: an operation
  that commits row changes returns the updated list of rows.  A SQLAlchemy
  row-level `UPDATE` of a fetched object is modelled by replacing the row
  with the matching primary key.
* `Optional[X]` columns and fields are `Option X`; Python's truthiness test
  `not user.token_expiry_date` on an optional datetime is `Option.isNone`
  (a `datetime` object is always truthy).
* External libraries are abstracted at their call boundary: bcrypt's
  `verify_password` is a Boolean-valued parameter, `get_password_hash` is a
  function parameter, and `generate_secure_token` / `datetime.now` results
  are passed in as arguments by the caller, exactly as the service code
  receives them as opaque values.
-/

/-- Role enumeration from `app/models/user.py` (`UserRole`). -/
inductive UserRole where
  | admin
  | cliente
  deriving Repr, DecidableEq

/-- The `users` table row, from `app/models/user.py` (`class User`).  Note that
`token_expiry_date` is a single nullable column shared by the e-mail
verification token and the password-reset token (the model's own comment:
"Data e hora em que os tokens (verificação ou reset) expiram"). -/
structure User where
  id : Nat
  email : String
  hashed_password : String
  full_name : Option String
  role : UserRole
  is_email_verified : Bool
  email_verification_token : Option String
  password_reset_token : Option String
  token_expiry_date : Option Nat
  deriving Repr, DecidableEq

/-- The user table contents, in row order. -/
abbrev UserDb := List User

/-- `UserService.get_user_by_email`: `select(User).filter(User.email == email)`,
first result or `None`. -/
def get_user_by_email (db : UserDb) (email : String) : Option User :=
  db.find? (fun u => u.email == email)

/-- `UserService.get_user_by_email_verification_token`. -/
def get_user_by_email_verification_token (db : UserDb) (token : String) : Option User :=
  db.find? (fun u => u.email_verification_token == some token)

/-- `UserService.get_user_by_password_reset_token`. -/
def get_user_by_password_reset_token (db : UserDb) (token : String) : Option User :=
  db.find? (fun u => u.password_reset_token == some token)

/-- Committing an `UPDATE` of a fetched user row: the row with the same
primary key is replaced by the mutated object. -/
def replaceUserById (db : UserDb) (uid : Nat) (u' : User) : UserDb :=
  db.map (fun v => if v.id == uid then u' else v)

/-- `UserService.verify_email(db, token)` (`app/services/user_service.py`,
lines 162-179).  Looks the user up by the presented verification token and
fails (returns `None`) when no row matches, the shared expiry slot is null,
or `token_expiry_date < now`; on success it sets `is_email_verified`, clears
the token and the expiry in the same commit, and returns the updated user.
The updated database is returned alongside. -/
def verify_email (db : UserDb) (token : String) (now : Nat) :
    Option (User × UserDb) :=
  match get_user_by_email_verification_token db token with
  | none => none
  | some user =>
    match user.token_expiry_date with
    | none => none
    | some e =>
      if e < now then none
      else
        let user' : User :=
          { user with
            is_email_verified := true
            email_verification_token := none
            token_expiry_date := none }
        some (user', replaceUserById db user.id user')

/-- `UserService.reset_password(db, token, new_password)`
(`app/services/user_service.py`, lines 212-229).  Same guard as
`verify_email` but on the reset token; on success stores
`get_password_hash(new_password)` (bcrypt, abstracted as `hashFn`) and clears
the reset token and the shared expiry in the same commit. -/
def reset_password (db : UserDb) (token : String) (now : Nat)
    (hashFn : String → String) (new_password : String) :
    Option (User × UserDb) :=
  match get_user_by_password_reset_token db token with
  | none => none
  | some user =>
    match user.token_expiry_date with
    | none => none
    | some e =>
      if e < now then none
      else
        let user' : User :=
          { user with
            hashed_password := hashFn new_password
            password_reset_token := none
            token_expiry_date := none }
        some (user', replaceUserById db user.id user')

/-- `UserService.request_password_reset_for_email(db, email)`
(`app/services/user_service.py`, lines 181-210).  `newToken` stands for the
`generate_secure_token()` result and `newExpiry` for
`now + PASSWORD_RESET_TOKEN_EXPIRE_HOURS`, both opaque to the logic.  Returns
the Boolean the service returns (e-mail dispatch is best-effort and does not
affect the state or the result). -/
def request_password_reset_for_email (db : UserDb) (email : String)
    (newToken : String) (newExpiry : Nat) : Bool × UserDb :=
  match get_user_by_email db email with
  | none => (false, db)
  | some user =>
    let user' : User :=
      { user with
        password_reset_token := some newToken
        token_expiry_date := some newExpiry }
    (true, replaceUserById db user.id user')

/-- `UserService.request_new_email_verification_token(db, email)`
(`app/services/user_service.py`, lines 231-263).  No-op returning `false`
when the user is not found or is already verified; otherwise overwrites the
verification token and the shared expiry. -/
def request_new_email_verification_token (db : UserDb) (email : String)
    (newToken : String) (newExpiry : Nat) : Bool × UserDb :=
  match get_user_by_email db email with
  | none => (false, db)
  | some user =>
    if user.is_email_verified then (false, db)
    else
      let user' : User :=
        { user with
          email_verification_token := some newToken
          token_expiry_date := some newExpiry }
      (true, replaceUserById db user.id user')

/-! JWT tokens (`app/core/security.py`) -/

/-- Environment default for the signing secret (`app/core/security.py`, line
13).  The proofs never depend on its value. -/
def SECRET_KEY : String := "default_secret_key_for_dev_only"

/-- Environment default, minutes (`app/core/security.py`, line 15). -/
def ACCESS_TOKEN_EXPIRE_MINUTES : Nat := 30

/-- Environment default, days (`app/core/security.py`, line 16). -/
def REFRESH_TOKEN_EXPIRE_DAYS : Nat := 7

/-- The claim dictionary handed to `create_access_token` /
`create_refresh_token` by the login and refresh handlers (`data={"sub": ...,
"user_id": ..., "role": ...}`).  Absent keys are `none`. -/
structure TokenClaims where
  sub : Option String
  user_id : Option Nat
  role : Option String
  deriving Repr, DecidableEq

/-- A decoded JWT payload: the caller's claims plus the keys the two token
constructors add (`exp` always; `type` only for refresh tokens). -/
structure JwtPayload where
  sub : Option String
  user_id : Option Nat
  role : Option String
  type : Option String
  exp : Nat
  deriving Repr, DecidableEq

/-- The `python-jose` codec is external to the repository; a signed compact
token is modelled as its payload together with the symmetric key it was
signed with. -/
structure Jwt where
  payload : JwtPayload
  signedWith : String
  deriving Repr, DecidableEq

/-- `jwt.encode(to_encode, key, algorithm)` for a payload already carrying
`exp` (and possibly `type`). -/
def jwt_encode (payload : JwtPayload) (key : String) : Jwt :=
  ⟨payload, key⟩

/-- `jwt.decode(token, key, algorithms=[...])`: signature check plus expiry
check (python-jose raises `ExpiredSignatureError` exactly when
`exp < now`, with zero leeway). -/
def jwt_decode (tok : Jwt) (key : String) (now : Nat) : Option JwtPayload :=
  if tok.signedWith == key && !(tok.payload.exp < now) then some tok.payload
  else none

/-- `create_access_token(data, expires_delta)` (`app/core/security.py`,
lines 35-44): copies the claims, adds `exp = now + expires_delta` (default
`ACCESS_TOKEN_EXPIRE_MINUTES` minutes, here in seconds) and signs with
`SECRET_KEY`.  Time deltas are in seconds. -/
def create_access_token (data : TokenClaims) (now : Nat)
    (expires_delta : Option Nat) : Jwt :=
  let expire := now + expires_delta.getD (ACCESS_TOKEN_EXPIRE_MINUTES * 60)
  jwt_encode ⟨data.sub, data.user_id, data.role, none, expire⟩ SECRET_KEY

/-- `create_refresh_token(data, expires_delta)` (`app/core/security.py`,
lines 46-55): same as the access constructor but with the default
`REFRESH_TOKEN_EXPIRE_DAYS` lifetime and the extra `"type": "refresh"`
claim. -/
def create_refresh_token (data : TokenClaims) (now : Nat)
    (expires_delta : Option Nat) : Jwt :=
  let expire := now + expires_delta.getD (REFRESH_TOKEN_EXPIRE_DAYS * 86400)
  jwt_encode ⟨data.sub, data.user_id, data.role, some "refresh", expire⟩ SECRET_KEY

/-- `class TokenData(BaseModel)` (`app/core/security.py`, lines 21-25): a
pydantic model whose only declared field is `email`. -/
structure TokenData where
  email : Option String
  deriving Repr, DecidableEq

/-- The attribute names a `TokenData` instance exposes (its pydantic fields);
used to model Python attribute lookup on it. -/
def TokenData_attributes : List String := ["email"]

/-- `decode_token(token)` (`app/core/security.py`, lines 57-69): decodes with
`SECRET_KEY`, reads the `"sub"` claim, returns `None` when decoding raises or
`sub` is absent, else `TokenData(email=sub)`.  Note that the `type` claim is
never inspected. -/
def decode_token (tok : Jwt) (now : Nat) : Option TokenData :=
  match jwt_decode tok SECRET_KEY now with
  | none => none
  | some payload =>
    match payload.sub with
    | none => none
    | some email => some ⟨some email⟩

/-! Authorization dependency chain (`app/core/dependencies.py`) -/

/-- An `HTTPException(status_code, detail)` as raised by the routers. -/
structure HttpError where
  status_code : Nat
  detail : String
  deriving Repr, DecidableEq

/-- The `credentials_exception` constructed in `get_current_user`
(`app/core/dependencies.py`, lines 33-37). -/
def credentials_exception : HttpError :=
  ⟨401, "Não foi possível validar as credenciais"⟩

/-- `get_current_user(db, token)` (`app/core/dependencies.py`, lines 24-50):
decodes the bearer token, rejects with the 401 `credentials_exception` when
decoding fails or the subject e-mail is absent or no user row carries that
e-mail, and otherwise returns that user.  No check of the token's `type`
claim happens anywhere on this path. -/
def get_current_user (db : UserDb) (tok : Jwt) (now : Nat) :
    Except HttpError User :=
  match decode_token tok now with
  | none => .error credentials_exception
  | some payload =>
    match payload.email with
    | none => .error credentials_exception
    | some email =>
      match get_user_by_email db email with
      | none => .error credentials_exception
      | some user => .ok user

/-! Login and account endpoints (`app/routers/users.py`) -/

/-- The body of a successful `POST /users/login` response. -/
structure LoginTokens where
  access_token : Jwt
  refresh_token : Jwt
  token_type : String
  deriving Repr, DecidableEq

/-- The single 401 error both credential-failure branches of the login
endpoint raise (`app/routers/users.py`, lines 27-31). -/
def invalid_credentials_error : HttpError :=
  ⟨401, "E-mail ou senha incorretos. Por favor, verifique suas credenciais e tente novamente."⟩

/-- The 400 error raised when the password is right but the e-mail is not
verified (`app/routers/users.py`, lines 33-36). -/
def email_not_verified_error : HttpError :=
  ⟨400, "Seu e-mail ainda não foi verificado. Por favor, verifique seu e-mail antes de fazer login."⟩

/-- Serialization of the role enum (`user.role.value`). -/
def UserRole.value : UserRole → String
  | .admin => "admin"
  | .cliente => "cliente"

/-- `login_for_access_token` (`app/routers/users.py`, lines 19-52): look up
by e-mail; `if not user or not security.verify_password(...)` raise the 401
`invalid_credentials_error` (one raise site for both cases); then reject
unverified e-mail with the 400 error; otherwise mint an access and a refresh
token carrying `sub`, `user_id` and `role` and answer with both.
`verify_password` (bcrypt, `app/core/security.py` lines 27-29) is abstracted
as the Boolean-valued parameter `vp`. -/
def login_for_access_token (vp : String → String → Bool) (db : UserDb)
    (username password : String) (now : Nat) : Except HttpError LoginTokens :=
  match get_user_by_email db username with
  | none => .error invalid_credentials_error
  | some user =>
    if !vp password user.hashed_password then .error invalid_credentials_error
    else if !user.is_email_verified then .error email_not_verified_error
    else
      let claims : TokenClaims := ⟨some user.email, some user.id, some user.role.value⟩
      .ok ⟨create_access_token claims now none, create_refresh_token claims now none, "bearer"⟩

/-- An endpoint response: HTTP status code plus the JSON `message` string. -/
structure MessageResponse where
  status_code : Nat
  message : String
  deriving Repr, DecidableEq

/-- `request_new_email_verification` (`app/routers/users.py`, lines 160-174):
calls the service, discards its Boolean, and answers 200 with a fixed
message whatever the internal outcome was.  (The `SQLAlchemyError` → 500 path
for a failing database is outside this model, which treats commits as
succeeding.) -/
def request_new_email_verification_endpoint (db : UserDb) (email : String)
    (newToken : String) (newExpiry : Nat) : MessageResponse × UserDb :=
  let r := request_new_email_verification_token db email newToken newExpiry
  (⟨200, "Se um usuário com este e-mail existir e não estiver verificado, um novo link de verificação foi enviado."⟩, r.2)

/-- `request_password_reset` (`app/routers/users.py`, lines 197-211): same
shape as the verification-request endpoint, fixed 200 message. -/
def request_password_reset_endpoint (db : UserDb) (email : String)
    (newToken : String) (newExpiry : Nat) : MessageResponse × UserDb :=
  let r := request_password_reset_for_email db email newToken newExpiry
  (⟨200, "Se um usuário com este e-mail existir, um link para redefinição de senha foi enviado."⟩, r.2)

/-! The refresh endpoint (`app/routers/auth.py`, lines 66-129)

The handler first calls `decode_token(refresh_token)` from
`app/core/security.py`, which returns `Optional[TokenData]`.  On line 86 it
then evaluates `payload.get("sub")`.  `TokenData` is a pydantic `BaseModel`
declaring only the field `email` and no method called `get`, so this
attribute lookup raises `AttributeError` for every token that decodes
successfully; FastAPI converts the uncaught exception into an HTTP 500.
The embedding models the attribute lookup through `TokenData_attributes`;
the branch taken when a `get` attribute would exist follows the remaining
source lines (403 on missing subject, 404 on missing user, fresh token pair
otherwise, reading the subject claim the decoder stored in `email`), but it
is unreachable because `"get" ∈ TokenData_attributes` is decidably false. -/

/-- Outcome of the `POST /refresh` handler: an HTTP error response, a fresh
token pair, or an uncaught Python exception (surfaced as HTTP 500). -/
inductive RefreshOutcome where
  | httpError (e : HttpError)
  | ok (access_token refresh_token : Jwt)
  | pythonAttributeError (message : String)
  deriving Repr, DecidableEq

/-- `refresh(refresh_token, db)` (`app/routers/auth.py`, lines 66-129),
embedded as described in the section comment above. -/
def refresh (db : UserDb) (refresh_token : Jwt) (now : Nat) : RefreshOutcome :=
  match decode_token refresh_token now with
  | none => .httpError ⟨403, "Token de refresh inválido"⟩
  | some payload =>
    if "get" ∈ TokenData_attributes then
      match payload.email with
      | none => .httpError ⟨403, "Payload do token inválido"⟩
      | some email =>
        match get_user_by_email db email with
        | none => .httpError ⟨404, "Usuário não encontrado"⟩
        | some user =>
          let accessClaims : TokenClaims := ⟨some user.email, some user.id, some user.role.value⟩
          let refreshClaims : TokenClaims := ⟨some user.email, none, none⟩
          .ok (create_access_token accessClaims now (some (ACCESS_TOKEN_EXPIRE_MINUTES * 60)))
              (create_refresh_token refreshClaims now (some (REFRESH_TOKEN_EXPIRE_DAYS * 86400)))
    else
      .pythonAttributeError "TokenData object has no attribute get"

/-! Authorized systems (`app/models/sistemas_autorizados.py`,
`app/services/sistemas_autorizados_service.py`) -/

/-- The `sistemas_autorizados` table row
(`app/models/sistemas_autorizados.py`). -/
structure SistemaAutorizado where
  id : Nat
  nome : String
  token : String
  ativo : Bool
  descricao : Option String
  data_criacao : Nat
  ultima_atividade : Option Nat
  deriving Repr, DecidableEq

/-- The authorized-systems table contents, in row order. -/
abbrev SistemaDb := List SistemaAutorizado

/-- `get_sistema_autorizado_by_id` (service, lines 49-55):
`scalar_one_or_none` on a primary-key filter. -/
def get_sistema_autorizado_by_id (db : SistemaDb) (sid : Nat) :
    Option SistemaAutorizado :=
  db.find? (fun s => s.id == sid)

/-- `get_sistema_autorizado_by_token` (service, lines 57-63): lookup over the
unique `token` column. -/
def get_sistema_autorizado_by_token (db : SistemaDb) (token : String) :
    Option SistemaAutorizado :=
  db.find? (fun s => s.token == token)

/-- Committing an `UPDATE` of a fetched system row. -/
def replaceSistemaById (db : SistemaDb) (sid : Nat) (s' : SistemaAutorizado) :
    SistemaDb :=
  db.map (fun v => if v.id == sid then s' else v)

/-- `atualizar_ultima_atividade_sistema(db, sistema_id)` (service, lines
77-93): sets `ultima_atividade := now` on the row and commits.  A failing
commit (`SQLAlchemyError`) is caught inside the function: it rolls the
change back and returns `None` instead of raising, so the caller's
authorization decision is unaffected.  `persistOk` models whether the commit
succeeds. -/
def atualizar_ultima_atividade_sistema (db : SistemaDb) (sid : Nat)
    (now : Nat) (persistOk : Bool) : Option SistemaAutorizado × SistemaDb :=
  match get_sistema_autorizado_by_id db sid with
  | none => (none, db)
  | some s =>
    if persistOk then
      let s' := { s with ultima_atividade := some now }
      (some s', replaceSistemaById db sid s')
    else (none, db)

/-- `validar_token_sistema(db, token)` (service, lines 65-75): lookup by the
presented API key; when a row matches and `ativo` is true, touch
`ultima_atividade` (best-effort: see `atualizar_ultima_atividade_sistema`)
and return the system; otherwise return `None`.  The returned object is the
one the lookup fetched, so its timestamp reflects the touch only when the
touch committed. -/
def validar_token_sistema (db : SistemaDb) (token : String) (now : Nat)
    (persistOk : Bool) : Option SistemaAutorizado × SistemaDb :=
  match get_sistema_autorizado_by_token db token with
  | none => (none, db)
  | some s =>
    if s.ativo then
      let r := atualizar_ultima_atividade_sistema db s.id now persistOk
      (some (r.1.getD s), r.2)
    else (none, db)

/-- `class SistemaAutorizadoUpdate` (`app/schemas/sistemas_autorizados_schemas.py`,
lines 13-16): every field optional, including `token` ("Permitir atualização
de token se necessário").  `none` models a field absent from the request
body, which `model_dump(exclude_unset=True)` drops; requests that pass an
explicit JSON `null` are outside the model. -/
structure SistemaAutorizadoUpdate where
  nome : Option String
  descricao : Option String
  ativo : Option Bool
  token : Option String
  deriving Repr, DecidableEq

/-- `update_sistema_autorizado(db, db_sistema, sistema_update)` (service,
lines 95-111): `setattr` of every field present in
`model_dump(exclude_unset=True)` onto the fetched row, then commit.  The
committed row value is returned; the surrounding database update is
`replaceSistemaById` as elsewhere. -/
def update_sistema_autorizado (db_sistema : SistemaAutorizado)
    (sistema_update : SistemaAutorizadoUpdate) : SistemaAutorizado :=
  { db_sistema with
    nome := sistema_update.nome.getD db_sistema.nome
    descricao := match sistema_update.descricao with
      | none => db_sistema.descricao
      | some d => some d
    ativo := sistema_update.ativo.getD db_sistema.ativo
    token := sistema_update.token.getD db_sistema.token }

/-! CPF validators (`app/utils/validadores.py` and `app/schemas/user.py`)

The two validators strip their input differently, and the difference is
observable: `validar_cpf` removes every character the regex `\D` matches,
keeping exactly the characters the Unicode-aware `\d` matches — general
category Nd (Numeric_Type Decimal); `validate_cpf` keeps the characters
`str.isdigit` accepts — Numeric_Type Decimal *or* Digit, which additionally
includes digit-typed characters outside Nd such as the superscript '²'.
The two predicates below transcribe those sets (Unicode 15.0 tables); they
coincide with `Char.isDigit` on ASCII.  The digit-value computation
`int(cpf[i])` is modelled as `c.toNat - 48`, which is exact for ASCII
digits; the theorems below exercise the validators only on inputs whose
kept characters are ASCII (the divergent input "52998224725²" fails the
length check before any digit value is read). -/

/-- Membership of a code point in a list of inclusive ranges. -/
def inRanges (n : Nat) (rs : List (Nat × Nat)) : Bool :=
  rs.any (fun r => r.1 ≤ n && n ≤ r.2)

/-- The Unicode 15.0 general-category-Nd ranges (Numeric_Type Decimal):
the characters Python's regex `\d` matches and `re.sub(r'\D', '', ...)`
keeps. -/
def nd_ranges : List (Nat × Nat) :=
  [(0x30, 0x39), (0x660, 0x669), (0x6F0, 0x6F9), (0x7C0, 0x7C9),
   (0x966, 0x96F), (0x9E6, 0x9EF), (0xA66, 0xA6F), (0xAE6, 0xAEF),
   (0xB66, 0xB6F), (0xBE6, 0xBEF), (0xC66, 0xC6F), (0xCE6, 0xCEF),
   (0xD66, 0xD6F), (0xDE6, 0xDEF), (0xE50, 0xE59), (0xED0, 0xED9),
   (0xF20, 0xF29), (0x1040, 0x1049), (0x1090, 0x1099), (0x17E0, 0x17E9),
   (0x1810, 0x1819), (0x1946, 0x194F), (0x19D0, 0x19D9), (0x1A80, 0x1A89),
   (0x1A90, 0x1A99), (0x1B50, 0x1B59), (0x1BB0, 0x1BB9), (0x1C40, 0x1C49),
   (0x1C50, 0x1C59), (0xA620, 0xA629), (0xA8D0, 0xA8D9), (0xA900, 0xA909),
   (0xA9D0, 0xA9D9), (0xA9F0, 0xA9F9), (0xAA50, 0xAA59), (0xABF0, 0xABF9),
   (0xFF10, 0xFF19), (0x104A0, 0x104A9), (0x10D30, 0x10D39),
   (0x11066, 0x1106F), (0x110F0, 0x110F9), (0x11136, 0x1113F),
   (0x111D0, 0x111D9), (0x112F0, 0x112F9), (0x11450, 0x11459),
   (0x114D0, 0x114D9), (0x11650, 0x11659), (0x116C0, 0x116C9),
   (0x11730, 0x11739), (0x118E0, 0x118E9), (0x11950, 0x11959),
   (0x11C50, 0x11C59), (0x11D50, 0x11D59), (0x11DA0, 0x11DA9),
   (0x11F50, 0x11F59), (0x16A60, 0x16A69), (0x16AC0, 0x16AC9),
   (0x16B50, 0x16B59), (0x1D7CE, 0x1D7FF), (0x1E140, 0x1E149),
   (0x1E2F0, 0x1E2F9), (0x1E4F0, 0x1E4F9), (0x1E950, 0x1E959),
   (0x1FBF0, 0x1FBF9)]

/-- A character of Unicode general category Nd: what `re.sub(r'\D', '', s)`
keeps.  Coincides with `Char.isDigit` on ASCII. -/
def unicode_decimal_digit (c : Char) : Bool :=
  inRanges c.toNat nd_ranges

/-- The Unicode 15.0 Numeric_Type-Digit ranges: digit-typed characters
outside Nd (superscripts and subscripts, Ethiopic and Kharoshthi digits,
circled and dingbat digits, digit-with-full-stop and digit-comma forms) that
`str.isdigit` additionally accepts. -/
def digit_type_ranges : List (Nat × Nat) :=
  [(0xB2, 0xB3), (0xB9, 0xB9), (0x1369, 0x1371), (0x19DA, 0x19DA),
   (0x2070, 0x2070), (0x2074, 0x2079), (0x2080, 0x2089), (0x2460, 0x2468),
   (0x2474, 0x247C), (0x2488, 0x2490), (0x24EA, 0x24EA), (0x24F5, 0x24FD),
   (0x24FF, 0x24FF), (0x2776, 0x277E), (0x2780, 0x2788), (0x278A, 0x2792),
   (0x10A40, 0x10A43), (0x1F100, 0x1F10A)]

/-- Python's `str.isdigit` for a single character: true when the character's
Numeric_Type is Decimal or Digit.  Strictly wider than
`unicode_decimal_digit` (for example at '²'), and coincides with
`Char.isDigit` on ASCII. -/
def python_str_isdigit (c : Char) : Bool :=
  unicode_decimal_digit c || inRanges c.toNat digit_type_ranges

/-- The inner `calcular_digito(cpf, peso)` of `validar_cpf`
(`app/utils/validadores.py`, lines 18-21):
`sum(int(cpf[i]) * peso[i] for i in range(len(peso)))`, then the mod-11
rule. -/
def calcular_digito (cpf : List Char) (peso : List Nat) : Nat :=
  let soma := (List.zipWith (fun c p => (c.toNat - 48) * p) cpf peso).sum
  let resto := soma % 11
  if resto < 2 then 0 else 11 - resto

/-- `validar_cpf(cpf)` (`app/utils/validadores.py`, lines 5-29).  The strip
`re.sub(r'\D', '', cpf)` keeps the `unicode_decimal_digit` characters.  The
final comparison `cpf[-2:] == f"{digito1}{digito2}"` compares the last two
characters with the decimal digits of the two check values (each is at most
9, so its decimal form is the single character `Nat.digitChar`). -/
def validar_cpf (s : String) : Bool :=
  let cpf := s.toList.filter unicode_decimal_digit
  if cpf.length ≠ 11 then false
  else if cpf.all (fun c => c == cpf.headI) then false
  else
    let digito1 := calcular_digito cpf [10, 9, 8, 7, 6, 5, 4, 3, 2]
    let digito2 := calcular_digito cpf [11, 10, 9, 8, 7, 6, 5, 4, 3, 2]
    cpf.drop 9 == [Nat.digitChar digito1, Nat.digitChar digito2]

/-- `validate_cpf(value)` (`app/schemas/user.py`, lines 12-34): raising
`ValueError(msg)` is `Except.error msg`; the early `if not value: return
value` branch returns the falsy string (only `""`) unvalidated; the strip
`filter(str.isdigit, value)` keeps the `python_str_isdigit` characters.
The success value is the formatted `xxx.xxx.xxx-xx` string. -/
def validate_cpf (value : String) : Except String String :=
  if value == "" then .ok value
  else
    let cpf := value.toList.filter python_str_isdigit
    if cpf.length ≠ 11 then .error "CPF deve conter 11 dígitos numéricos."
    else if cpf.all (fun c => c == cpf.headI) then
      .error "CPF inválido: todos os dígitos são iguais."
    else
      let soma1 : Nat := (List.zipWith (fun c w => (c.toNat - 48) * w) cpf
        ((List.range 9).map (fun i => 10 - i))).sum
      let dv1 : Nat := if soma1 % 11 < 2 then 0 else 11 - soma1 % 11
      if dv1 ≠ (cpf.getD 9 '0').toNat - 48 then
        .error "CPF inválido: primeiro dígito verificador não confere."
      else
        let soma2 : Nat := (List.zipWith (fun c w => (c.toNat - 48) * w) cpf
          ((List.range 10).map (fun i => 11 - i))).sum
        let dv2 : Nat := if soma2 % 11 < 2 then 0 else 11 - soma2 % 11
        if dv2 ≠ (cpf.getD 10 '0').toNat - 48 then
          .error "CPF inválido: segundo dígito verificador não confere."
        else
          .ok (String.mk (cpf.take 3) ++ "." ++ String.mk ((cpf.drop 3).take 3)
            ++ "." ++ String.mk ((cpf.drop 6).take 3) ++ "-" ++ String.mk (cpf.drop 9))

/-! Per-user token lifecycle

A transition system on the single user row the token operations of
`UserService` mutate; each constructor is the row-level effect of the
corresponding service method on the affected user (other rows are never
touched by these methods).  Fresh random tokens and expiry timestamps are
parameters of the issuing steps, exactly as in the database-level
definitions above. -/

/-- The user row `create_user` commits (`app/services/user_service.py`,
lines 78-118) in normal mode: unverified, verification token and shared
expiry set, no reset token. -/
def created_user (uid : Nat) (email hp : String) (fn : Option String)
    (r : UserRole) (tok : String) (exp : Nat) : User :=
  ⟨uid, email, hp, fn, r, false, some tok, none, some exp⟩

/-- One committed state change of a user row by the `UserService` token
operations (plus profile updates through `update_user`, which cannot touch
the token columns — `UserUpdate` does not expose them). -/
inductive UserStep : User → User → Prop where
  /-- `request_new_email_verification_token`, reached only when the user is
  not yet verified; overwrites the verification token and the shared
  expiry. -/
  | request_verification (u : User) (tok : String) (exp : Nat)
      (h : u.is_email_verified = false) :
      UserStep u { u with email_verification_token := some tok,
                          token_expiry_date := some exp }
  /-- `request_password_reset_for_email`; overwrites the reset token and the
  shared expiry. -/
  | request_reset (u : User) (tok : String) (exp : Nat) :
      UserStep u { u with password_reset_token := some tok,
                          token_expiry_date := some exp }
  /-- Successful `verify_email`: the presented token matches, the expiry is
  non-null and not in the past; sets the flag and clears token and expiry in
  the same commit. -/
  | verify_success (u : User) (tok : String) (e now : Nat)
      (htok : u.email_verification_token = some tok)
      (hexp : u.token_expiry_date = some e) (hnow : ¬ e < now) :
      UserStep u { u with is_email_verified := true,
                          email_verification_token := none,
                          token_expiry_date := none }
  /-- Successful `reset_password`: same guard on the reset token; stores the
  new hash and clears token and expiry in the same commit. -/
  | reset_success (u : User) (tok : String) (e now : Nat) (newHash : String)
      (htok : u.password_reset_token = some tok)
      (hexp : u.token_expiry_date = some e) (hnow : ¬ e < now) :
      UserStep u { u with hashed_password := newHash,
                          password_reset_token := none,
                          token_expiry_date := none }
  /-- `update_user` with any `UserUpdate` body: may rewrite profile fields
  and even `is_email_verified`, but has no access to the token columns. -/
  | update_profile (u : User) (email hp : String) (fn : Option String)
      (r : UserRole) (v : Bool) :
      UserStep u { u with email := email, hashed_password := hp,
                          full_name := fn, role := r, is_email_verified := v }

/-- A user row state reachable from registration through the service
operations. -/
inductive ReachableUser : User → Prop where
  | created (uid : Nat) (email hp : String) (fn : Option String)
      (r : UserRole) (tok : String) (exp : Nat) :
      ReachableUser (created_user uid email hp fn r tok exp)
  | step {u v : User} : ReachableUser u → UserStep u v → ReachableUser v

/-- The invariant claimed by the specification ("exactly one of {no
outstanding token} or {token + non-null expiry} holds at any time per token
type"), stated over the code's single shared expiry column: for each token
type, either the token field is null or both it and the expiry are
non-null. -/
def spec_per_type_token_invariant (u : User) : Prop :=
  (u.email_verification_token = none ∨
    (u.email_verification_token ≠ none ∧ u.token_expiry_date ≠ none)) ∧
  (u.password_reset_token = none ∨
    (u.password_reset_token ≠ none ∧ u.token_expiry_date ≠ none))

/-- The specification's redemption condition, from its words: "`redeem(T)`
succeeds iff `T.expiry > now` and `T` matches stored value" — the expiry
strictly in the future.  Defined for comparison against the code's
behaviour. -/
def spec_redeem_condition (u : User) (now : Nat) : Prop :=
  ∃ e, u.token_expiry_date = some e ∧ now < e

/-! Theorems -/

/-- C9: the request-email-verification and request-password-reset endpoints
return the same generic success response (status and message) regardless of
the database contents and the e-mail presented — registered, unregistered or
already verified alike. -/
theorem C9_uninformative_request_endpoints (db₁ db₂ : UserDb)
    (e₁ e₂ t₁ t₂ : String) (x₁ x₂ : Nat) :
    (request_new_email_verification_endpoint db₁ e₁ t₁ x₁).1 =
      (request_new_email_verification_endpoint db₂ e₂ t₂ x₂).1 ∧
    (request_password_reset_endpoint db₁ e₁ t₁ x₁).1 =
      (request_password_reset_endpoint db₂ e₂ t₂ x₂).1 :=
  ⟨rfl, rfl⟩

/-- C6 counterexample: an update request carrying the optional `token` field
replaces the stored API key, so the stored token after the update differs
from the token before it — the claimed immutability fails. -/
theorem C6_counterexample :
    (update_sistema_autorizado ⟨1, "ERP", "chave-original", true, none, 0, none⟩
      ⟨none, none, none, some "chave-nova"⟩).token ≠ "chave-original" := by
  decide

/-- C6 amended: the stored API key survives every update whose request body
does not include the `token` field; the `SistemaAutorizadoUpdate` schema does
expose an optional `token` field, and an update that supplies it overwrites
the key. -/
theorem C6_token_preserved_when_unset (s : SistemaAutorizado)
    (upd : SistemaAutorizadoUpdate) (h : upd.token = none) :
    (update_sistema_autorizado s upd).token = s.token := by
  simp [update_sistema_autorizado, h]

/-- C6 witness: the amended theorem applied to a concrete system and a
token-free update. -/
theorem C6_token_preserved_witness :
    (update_sistema_autorizado ⟨1, "ERP", "chave-original", true, none, 0, none⟩
      ⟨some "ERP novo", none, some false, none⟩).token = "chave-original" :=
  C6_token_preserved_when_unset _ _ rfl

/-- C2: the login endpoint answers with the one 401 `invalid_credentials_error`
value both when no user carries the e-mail and when the password check fails;
with the distinct 400 `email_not_verified_error` when the credentials are
right but the e-mail is unverified; and with an access/refresh token pair
exactly when the credentials are right and the e-mail is verified. -/
theorem C2_login_error_discipline (vp : String → String → Bool) (db : UserDb)
    (username password : String) (now : Nat) :
    (get_user_by_email db username = none →
      login_for_access_token vp db username password now =
        .error invalid_credentials_error) ∧
    (∀ u, get_user_by_email db username = some u →
      vp password u.hashed_password = false →
      login_for_access_token vp db username password now =
        .error invalid_credentials_error) ∧
    invalid_credentials_error.status_code = 401 ∧
    (∀ u, get_user_by_email db username = some u →
      vp password u.hashed_password = true → u.is_email_verified = false →
      login_for_access_token vp db username password now =
        .error email_not_verified_error) ∧
    email_not_verified_error.status_code = 400 ∧
    email_not_verified_error ≠ invalid_credentials_error ∧
    (∀ u, get_user_by_email db username = some u →
      vp password u.hashed_password = true → u.is_email_verified = true →
      login_for_access_token vp db username password now =
        .ok ⟨create_access_token ⟨some u.email, some u.id, some u.role.value⟩ now none,
             create_refresh_token ⟨some u.email, some u.id, some u.role.value⟩ now none,
             "bearer"⟩) := by
  refine ⟨?_, ?_, rfl, ?_, rfl, by decide, ?_⟩
  · intro h
    simp [login_for_access_token, h]
  · intro u hu hvp
    simp [login_for_access_token, hu, hvp]
  · intro u hu hvp hver
    simp [login_for_access_token, hu, hvp, hver]
  · intro u hu hvp hver
    simp [login_for_access_token, hu, hvp, hver]

/-- C2 witness: the theorem applied with a concrete database; an unknown
e-mail draws the 401 error and a correct, verified login draws the token
pair. -/
theorem C2_login_witness :
    login_for_access_token (fun p h => p == h)
      [⟨1, "a@b.c", "senha", none, .cliente, true, none, none, none⟩]
      "x@y.z" "senha" 0 = .error invalid_credentials_error ∧
    login_for_access_token (fun p h => p == h)
      [⟨1, "a@b.c", "senha", none, .cliente, true, none, none, none⟩]
      "a@b.c" "senha" 0 =
      .ok ⟨create_access_token ⟨some "a@b.c", some 1, some "cliente"⟩ 0 none,
           create_refresh_token ⟨some "a@b.c", some 1, some "cliente"⟩ 0 none,
           "bearer"⟩ :=
  ⟨(C2_login_error_discipline _ _ _ _ _).1 rfl,
   (C2_login_error_discipline _ _ _ _ _).2.2.2.2.2.2
     ⟨1, "a@b.c", "senha", none, .cliente, true, none, none, none⟩ rfl rfl rfl⟩

/-- C5: API-key validation succeeds exactly when a stored key matches and its
system is active; an inactive key produces the same result (and the same
untouched database) as a nonexistent key; a key that fails never advances
`ultima_atividade` (the database is returned unchanged); a failure to
persist the activity touch leaves the authorization decision a success; and
a successful validation with a working commit records `ultima_atividade =
now`. -/
theorem C5_api_key_validation (db : SistemaDb) (t : String) (now : Nat)
    (persistOk : Bool) :
    ((validar_token_sistema db t now persistOk).1.isSome = true ↔
      ∃ s, get_sistema_autorizado_by_token db t = some s ∧ s.ativo = true) ∧
    (get_sistema_autorizado_by_token db t = none →
      validar_token_sistema db t now persistOk = (none, db)) ∧
    (∀ s, get_sistema_autorizado_by_token db t = some s → s.ativo = false →
      validar_token_sistema db t now persistOk = (none, db)) ∧
    (∀ s, get_sistema_autorizado_by_token db t = some s → s.ativo = true →
      validar_token_sistema db t now false = (some s, db)) ∧
    (∀ s, get_sistema_autorizado_by_token db t = some s → s.ativo = true →
      ∃ s', validar_token_sistema db t now true =
          (some s', replaceSistemaById db s.id s') ∧
        s'.ultima_atividade = some now) := by
  refine ⟨?_, ?_, ?_, ?_, ?_⟩
  · cases h : get_sistema_autorizado_by_token db t with
    | none => simp [validar_token_sistema, h]
    | some s =>
      cases hativo : s.ativo with
      | false => simp [validar_token_sistema, h, hativo]
      | true =>
        simp only [validar_token_sistema, h, hativo, if_true]
        simp
        exact hativo
  · intro h
    simp [validar_token_sistema, h]
  · intro s h hativo
    simp [validar_token_sistema, h, hativo]
  · intro s h hativo
    cases h2 : get_sistema_autorizado_by_id db s.id with
    | none => simp [validar_token_sistema, h, hativo, atualizar_ultima_atividade_sistema, h2]
    | some s₂ => simp [validar_token_sistema, h, hativo, atualizar_ultima_atividade_sistema, h2]
  · intro s h hativo
    have hmem : s ∈ db := List.mem_of_find?_eq_some h
    have hfind : ∃ s₂, get_sistema_autorizado_by_id db s.id = some s₂ := by
      cases h2 : get_sistema_autorizado_by_id db s.id with
      | none =>
        have := List.find?_eq_none.mp h2 s hmem
        simp at this
      | some s₂ => exact ⟨s₂, rfl⟩
    obtain ⟨s₂, h2⟩ := hfind
    refine ⟨{ s₂ with ultima_atividade := some now }, ?_, rfl⟩
    simp [validar_token_sistema, h, hativo, atualizar_ultima_atividade_sistema, h2]

/-- C5 witness: the theorem applied to a one-system database: an active key
is accepted even when the activity touch fails to persist, and the state is
then unchanged. -/
theorem C5_api_key_witness :
    validar_token_sistema [⟨1, "sys", "key", true, none, 0, none⟩] "key" 5 false =
      (some ⟨1, "sys", "key", true, none, 0, none⟩,
       [⟨1, "sys", "key", true, none, 0, none⟩]) :=
  (C5_api_key_validation _ "key" 5 false).2.2.2.1 _ rfl rfl

/-- C4 counterexample: a token minted by `create_refresh_token` (for an
existing user, unexpired) presented on the current-user extraction path
authenticates the bearer: `get_current_user` returns that user instead of
rejecting the refresh token. -/
theorem C4_counterexample :
    get_current_user [⟨7, "a@b.c", "h", none, .cliente, true, none, none, none⟩]
      (create_refresh_token ⟨some "a@b.c", some 7, some "cliente"⟩ 0 none) 0 =
      .ok ⟨7, "a@b.c", "h", none, .cliente, true, none, none, none⟩ := by
  rfl

/-- C4 amended: every token minted by `create_refresh_token` does carry the
`type = "refresh"` marker, but the current-user path never inspects it: any
refresh token with a valid signature, an unexpired `exp` and a subject whose
user exists is accepted by `get_current_user`, which returns that user. -/
theorem C4_refresh_marker_not_checked :
    (∀ (data : TokenClaims) (now : Nat) (d : Option Nat),
      (create_refresh_token data now d).payload.type = some "refresh") ∧
    (∀ (db : UserDb) (data : TokenClaims) (issued : Nat) (d : Option Nat)
      (now : Nat) (u : User),
      data.sub = some u.email →
      get_user_by_email db u.email = some u →
      now ≤ (create_refresh_token data issued d).payload.exp →
      get_current_user db (create_refresh_token data issued d) now = .ok u) := by
  refine ⟨fun _ _ _ => rfl, ?_⟩
  intro db data issued d now u hsub hu hexp
  simp only [create_refresh_token, jwt_encode] at hexp ⊢
  simp [get_current_user, decode_token, jwt_decode, hsub, hu, Nat.not_lt, hexp]

/-- C4 witness: the amended theorem applied to a concrete user and refresh
token. -/
theorem C4_refresh_marker_witness :
    get_current_user [⟨7, "a@b.c", "h", none, .cliente, true, none, none, none⟩]
      (create_refresh_token ⟨some "a@b.c", none, none⟩ 0 none) 3 =
      .ok ⟨7, "a@b.c", "h", none, .cliente, true, none, none, none⟩ :=
  C4_refresh_marker_not_checked.2 _ _ 0 none 3 _ rfl rfl (by decide)

/-- After replacing the unique holder of verification token `t` by a row
that no longer carries `t`, no row carries `t` any more.  The uniqueness
hypothesis reflects the unique index on the
`email_verification_token` column. -/
theorem find_ev_token_after_replace (db : UserDb) (t : String) (u u' : User)
    (hmem : u ∈ db) (hself : u.email_verification_token = some t)
    (huniq : ∀ v ∈ db, ∀ w ∈ db, v.email_verification_token = some t →
      w.email_verification_token = some t → v = w)
    (hu' : u'.email_verification_token ≠ some t) :
    get_user_by_email_verification_token (replaceUserById db u.id u') t = none := by
  unfold get_user_by_email_verification_token replaceUserById
  rw [List.find?_eq_none]
  intro x hx
  rw [List.mem_map] at hx
  obtain ⟨v, hv, rfl⟩ := hx
  by_cases hid : (v.id == u.id) = true
  · simp only [hid, if_true]
    intro h
    exact hu' (by rwa [beq_iff_eq] at h)
  · rw [Bool.not_eq_true] at hid
    simp only [hid, Bool.false_eq_true, if_false]
    intro h
    rw [beq_iff_eq] at h
    have hvu : v = u := huniq v hv u hmem h hself
    rw [hvu] at hid
    simp at hid

/-- Twin of `find_ev_token_after_replace` for the password-reset token
column. -/
theorem find_pr_token_after_replace (db : UserDb) (t : String) (u u' : User)
    (hmem : u ∈ db) (hself : u.password_reset_token = some t)
    (huniq : ∀ v ∈ db, ∀ w ∈ db, v.password_reset_token = some t →
      w.password_reset_token = some t → v = w)
    (hu' : u'.password_reset_token ≠ some t) :
    get_user_by_password_reset_token (replaceUserById db u.id u') t = none := by
  unfold get_user_by_password_reset_token replaceUserById
  rw [List.find?_eq_none]
  intro x hx
  rw [List.mem_map] at hx
  obtain ⟨v, hv, rfl⟩ := hx
  by_cases hid : (v.id == u.id) = true
  · simp only [hid, if_true]
    intro h
    exact hu' (by rwa [beq_iff_eq] at h)
  · rw [Bool.not_eq_true] at hid
    simp only [hid, Bool.false_eq_true, if_false]
    intro h
    rw [beq_iff_eq] at h
    have hvu : v = u := huniq v hv u hmem h hself
    rw [hvu] at hid
    simp at hid

/-- C1 amended: redemption of a single-use token succeeds iff the presented
token matches a stored token value and the stored expiry is non-null and not
strictly in the past (`now ≤ expiry` — the code rejects only
`expiry < now`, so an expiry equal to `now` is still accepted, which is
where the original strictly-future claim fails); on success the token field
and the expiry are cleared together with the authorized state change, and
redeeming the same token again fails, for both the e-mail-verification and
the password-reset flows. -/
theorem C1_redemption (db : UserDb) (t : String) (now : Nat)
    (hashFn : String → String) (npw : String) :
    ((verify_email db t now).isSome = true ↔
      ∃ u e, get_user_by_email_verification_token db t = some u ∧
        u.token_expiry_date = some e ∧ now ≤ e) ∧
    (∀ u' db',
      (∀ v ∈ db, ∀ w ∈ db, v.email_verification_token = some t →
        w.email_verification_token = some t → v = w) →
      verify_email db t now = some (u', db') →
      u'.is_email_verified = true ∧ u'.email_verification_token = none ∧
        u'.token_expiry_date = none ∧ ∀ now₂, verify_email db' t now₂ = none) ∧
    ((reset_password db t now hashFn npw).isSome = true ↔
      ∃ u e, get_user_by_password_reset_token db t = some u ∧
        u.token_expiry_date = some e ∧ now ≤ e) ∧
    (∀ u' db',
      (∀ v ∈ db, ∀ w ∈ db, v.password_reset_token = some t →
        w.password_reset_token = some t → v = w) →
      reset_password db t now hashFn npw = some (u', db') →
      u'.hashed_password = hashFn npw ∧ u'.password_reset_token = none ∧
        u'.token_expiry_date = none ∧
        ∀ now₂ h₂ npw₂, reset_password db' t now₂ h₂ npw₂ = none) := by
  refine ⟨?_, ?_, ?_, ?_⟩
  · cases h : get_user_by_email_verification_token db t with
    | none => simp [verify_email, h]
    | some u =>
      cases he : u.token_expiry_date with
      | none => simp [verify_email, h, he]
      | some e =>
        by_cases hlt : e < now
        · simp [verify_email, h, he, hlt]
        · simp [verify_email, h, he, hlt]
          exact Nat.not_lt.mp hlt
  · intro u' db' huniq heq
    cases h : get_user_by_email_verification_token db t with
    | none => simp [verify_email, h] at heq
    | some u =>
      simp only [verify_email, h] at heq
      cases he : u.token_expiry_date with
      | none => rw [he] at heq; simp at heq
      | some e =>
        rw [he] at heq
        by_cases hlt : e < now
        · simp [hlt] at heq
        · simp only [hlt, if_false, Option.some.injEq, Prod.mk.injEq] at heq
          obtain ⟨hu', hdb'⟩ := heq
          subst hu'; subst hdb'
          refine ⟨rfl, rfl, rfl, ?_⟩
          intro now₂
          have hmem : u ∈ db := List.mem_of_find?_eq_some h
          have hself : u.email_verification_token = some t := by
            have := List.find?_some h
            rwa [beq_iff_eq] at this
          have hnone := find_ev_token_after_replace db t u
            { u with is_email_verified := true, email_verification_token := none,
                     token_expiry_date := none } hmem hself huniq (by simp)
          simp [verify_email, hnone]
  · cases h : get_user_by_password_reset_token db t with
    | none => simp [reset_password, h]
    | some u =>
      cases he : u.token_expiry_date with
      | none => simp [reset_password, h, he]
      | some e =>
        by_cases hlt : e < now
        · simp [reset_password, h, he, hlt]
        · simp [reset_password, h, he, hlt]
          exact Nat.not_lt.mp hlt
  · intro u' db' huniq heq
    cases h : get_user_by_password_reset_token db t with
    | none => simp [reset_password, h] at heq
    | some u =>
      simp only [reset_password, h] at heq
      cases he : u.token_expiry_date with
      | none => rw [he] at heq; simp at heq
      | some e =>
        rw [he] at heq
        by_cases hlt : e < now
        · simp [hlt] at heq
        · simp only [hlt, if_false, Option.some.injEq, Prod.mk.injEq] at heq
          obtain ⟨hu', hdb'⟩ := heq
          subst hu'; subst hdb'
          refine ⟨rfl, rfl, rfl, ?_⟩
          intro now₂ h₂ npw₂
          have hmem : u ∈ db := List.mem_of_find?_eq_some h
          have hself : u.password_reset_token = some t := by
            have := List.find?_some h
            rwa [beq_iff_eq] at this
          have hnone := find_pr_token_after_replace db t u
            { u with hashed_password := hashFn npw, password_reset_token := none,
                     token_expiry_date := none } hmem hself huniq (by simp)
          simp [reset_password, hnone]

/-- C1 counterexample: a user whose verification token matches and whose
stored expiry equals the present instant is redeemed successfully by the
code, although the specification's condition `T.expiry > now` is false
there — redemption is not equivalent to the strictly-future condition. -/
theorem C1_counterexample :
    (verify_email [⟨1, "a@b.c", "h", none, .cliente, false, some "tok", none, some 100⟩]
      "tok" 100).isSome = true ∧
    ¬ spec_redeem_condition
        ⟨1, "a@b.c", "h", none, .cliente, false, some "tok", none, some 100⟩ 100 := by
  refine ⟨by rfl, ?_⟩
  rintro ⟨e, he, hlt⟩
  simp at he
  omega

/-- C1 witness: a concrete redemption succeeds and clears the token, and the
second redemption of the same token fails, via `C1_redemption`. -/
theorem C1_redemption_witness :
    verify_email [⟨1, "a@b.c", "h", none, .cliente, false, some "tok", none, some 100⟩] "tok" 50 =
      some (⟨1, "a@b.c", "h", none, .cliente, true, none, none, none⟩,
            [⟨1, "a@b.c", "h", none, .cliente, true, none, none, none⟩]) ∧
    verify_email [⟨1, "a@b.c", "h", none, .cliente, true, none, none, none⟩] "tok" 50 = none :=
  ⟨rfl, ((C1_redemption [⟨1, "a@b.c", "h", none, .cliente, false, some "tok", none, some 100⟩]
      "tok" 50 id "x").2.1 _ _ (by decide) rfl).2.2.2 50⟩

/-- C8: issuing a fresh verification (resp. reset) token through the
request operation overwrites the prior token and expiry of that user in one
commit, and the old token string is afterwards no longer redeemable by
`verify_email` (resp. `reset_password`).  The uniqueness hypotheses are the
unique indexes on the token columns; `tNew ≠ tOld` holds for the fresh
random token. -/
theorem C8_single_outstanding (db : UserDb) (email tNew tOld : String) (eNew : Nat) :
    (∀ u, get_user_by_email db email = some u → u.is_email_verified = false →
      u.email_verification_token = some tOld → tNew ≠ tOld →
      (∀ v ∈ db, ∀ w ∈ db, v.email_verification_token = some tOld →
        w.email_verification_token = some tOld → v = w) →
      request_new_email_verification_token db email tNew eNew =
        (true, replaceUserById db u.id
          { u with email_verification_token := some tNew,
                   token_expiry_date := some eNew }) ∧
      (∀ now, verify_email
        (request_new_email_verification_token db email tNew eNew).2 tOld now = none)) ∧
    (∀ u, get_user_by_email db email = some u →
      u.password_reset_token = some tOld → tNew ≠ tOld →
      (∀ v ∈ db, ∀ w ∈ db, v.password_reset_token = some tOld →
        w.password_reset_token = some tOld → v = w) →
      request_password_reset_for_email db email tNew eNew =
        (true, replaceUserById db u.id
          { u with password_reset_token := some tNew,
                   token_expiry_date := some eNew }) ∧
      (∀ now h₂ npw₂, reset_password
        (request_password_reset_for_email db email tNew eNew).2 tOld now h₂ npw₂ = none)) := by
  constructor
  · intro u hu hver hold hne huniq
    have hreq : request_new_email_verification_token db email tNew eNew =
        (true, replaceUserById db u.id
          { u with email_verification_token := some tNew,
                   token_expiry_date := some eNew }) := by
      simp [request_new_email_verification_token, hu, hver]
    refine ⟨hreq, ?_⟩
    intro now
    rw [hreq]
    have hmem : u ∈ db := List.mem_of_find?_eq_some hu
    have hnone := find_ev_token_after_replace db tOld u
      { u with email_verification_token := some tNew,
               token_expiry_date := some eNew } hmem hold huniq (by simpa using hne)
    simp [verify_email, hnone]
  · intro u hu hold hne huniq
    have hreq : request_password_reset_for_email db email tNew eNew =
        (true, replaceUserById db u.id
          { u with password_reset_token := some tNew,
                   token_expiry_date := some eNew }) := by
      simp [request_password_reset_for_email, hu]
    refine ⟨hreq, ?_⟩
    intro now h₂ npw₂
    rw [hreq]
    have hmem : u ∈ db := List.mem_of_find?_eq_some hu
    have hnone := find_pr_token_after_replace db tOld u
      { u with password_reset_token := some tNew,
               token_expiry_date := some eNew } hmem hold huniq (by simpa using hne)
    simp [reset_password, hnone]

/-- C8 witness: `C8_single_outstanding` applied to concrete one-user
databases for both token types. -/
theorem C8_single_outstanding_witness :
    verify_email
      (request_new_email_verification_token
        [⟨1, "a@b.c", "h", none, .cliente, false, some "old", none, some 10⟩]
        "a@b.c" "new" 500).2 "old" 100 = none ∧
    reset_password
      (request_password_reset_for_email
        [⟨1, "a@b.c", "h", none, .cliente, false, none, some "old", some 10⟩]
        "a@b.c" "new" 500).2 "old" 100 id "x" = none :=
  ⟨((C8_single_outstanding
      [⟨1, "a@b.c", "h", none, .cliente, false, some "old", none, some 10⟩]
      "a@b.c" "new" "old" 500).1 _ rfl rfl rfl (by decide) (by decide)).2 100,
   ((C8_single_outstanding
      [⟨1, "a@b.c", "h", none, .cliente, false, none, some "old", some 10⟩]
      "a@b.c" "new" "old" 500).2 _ rfl rfl (by decide) (by decide)).2 100 id "x"⟩

/-- C7 amended: in every user state reachable through the token lifecycle, a
non-null shared expiry implies at least one token field is non-null, and
each issuing operation establishes its token together with the expiry;
but the per-type disjunction {no token} or {token and non-null expiry} of
the original claim is not preserved by consuming the other type's token,
because `token_expiry_date` is a single column shared by both types
(see `C7_counterexample`). -/
theorem C7_shared_expiry_invariant :
    ∀ u, ReachableUser u → u.token_expiry_date ≠ none →
      (u.email_verification_token ≠ none ∨ u.password_reset_token ≠ none) := by
  intro u hr
  induction hr with
  | created uid email hp fn r tok exp =>
    intro _
    left
    simp [created_user]
  | step hr hs ih =>
    cases hs with
    | request_verification tok exp h => intro _; left; simp
    | request_reset tok exp => intro _; right; simp
    | verify_success tok e now htok hexp hnow => intro hcon; simp at hcon
    | reset_success tok e now newHash htok hexp hnow => intro hcon; simp at hcon
    | update_profile email hp fn r v => intro hx; exact ih hx

/-- C7 witness: the amended invariant applied to a freshly created user. -/
theorem C7_shared_expiry_witness :
    (created_user 1 "a@b.c" "h" none .cliente "tok" 5).email_verification_token ≠ none ∨
    (created_user 1 "a@b.c" "h" none .cliente "tok" 5).password_reset_token ≠ none :=
  C7_shared_expiry_invariant _ (.created 1 "a@b.c" "h" none .cliente "tok" 5)
    (by simp [created_user])

/-- C7 counterexample: the state reached by registering (verification token
issued), then requesting a password reset, then redeeming the reset token is
reachable, yet it violates the specification's per-type invariant: the
verification token is still outstanding while the shared expiry was cleared
by the reset redemption. -/
theorem C7_counterexample :
    ReachableUser ⟨1, "a@b.c", "h1", none, .cliente, false, some "tok1", none, none⟩ ∧
    ¬ spec_per_type_token_invariant
        ⟨1, "a@b.c", "h1", none, .cliente, false, some "tok1", none, none⟩ := by
  constructor
  · have h1 : ReachableUser (created_user 1 "a@b.c" "h0" none .cliente "tok1" 100) :=
      .created 1 "a@b.c" "h0" none .cliente "tok1" 100
    have h2 : ReachableUser
        { created_user 1 "a@b.c" "h0" none .cliente "tok1" 100 with
          password_reset_token := some "tok2", token_expiry_date := some 200 } :=
      h1.step (.request_reset _ "tok2" 200)
    exact h2.step (.reset_success _ "tok2" 200 150 "h1" rfl rfl (by omega))
  · rintro ⟨h, -⟩
    rcases h with h | ⟨-, h⟩ <;> simp at h

/-- C3: for every refresh token that decodes successfully, the refresh
handler does not reach the 404 check or the token minting at all: the very
next line, `payload.get("sub")`, is an attribute lookup that `TokenData`
does not support, so the handler raises `AttributeError` (HTTP 500) instead
of returning a fresh pair.  (The module is also unimportable as shipped:
`from app.services.user_service import get_user_by_email` names a method,
not a module-level function.) -/
theorem C3_refresh_crashes (db : UserDb) (tok : Jwt) (now : Nat) (payload : TokenData)
    (h : decode_token tok now = some payload) :
    refresh db tok now = .pythonAttributeError "TokenData object has no attribute get" := by
  simp [refresh, h, TokenData_attributes]

/-- C3 witness: the crash theorem evaluated at a concrete decodable refresh
token whose subject user exists. -/
theorem C3_refresh_crashes_witness :
    refresh [⟨7, "a@b.c", "h", none, .cliente, true, none, none, none⟩]
      (create_refresh_token ⟨some "a@b.c", some 7, some "cliente"⟩ 0 none) 0 =
      .pythonAttributeError "TokenData object has no attribute get" :=
  C3_refresh_crashes _ _ _ ⟨some "a@b.c"⟩ (by decide)

/-- Code of a decimal digit character. -/
theorem digitChar_toNat_of_lt {d : Nat} (h : d < 10) :
    (Nat.digitChar d).toNat = 48 + d := by
  revert h
  revert d
  decide

/-- Characters with equal code points are equal. -/
theorem char_toNat_inj {a b : Char} (h : a.toNat = b.toNat) : a = b :=
  Char.ext (UInt32.ext h)

/-- A character accepted by `Char.isDigit` has a code point between 48 and
57. -/
theorem isDigit_toNat_bounds {c : Char} (h : c.isDigit = true) :
    48 ≤ c.toNat ∧ c.toNat ≤ 57 := by
  simp [Char.isDigit] at h
  exact h

/-- For a digit character `c`, comparing `c` against the decimal rendering of
a one-digit number (as `validar_cpf` does on characters) is the same as
comparing the numeric values (as `validate_cpf` does via `int(...)`). -/
theorem digitChar_eq_iff_of_digit {d : Nat} {c : Char} (hd : d < 10)
    (hc : c.isDigit = true) : c = Nat.digitChar d ↔ d = c.toNat - 48 := by
  obtain ⟨h1, h2⟩ := isDigit_toNat_bounds hc
  constructor
  · intro h
    rw [h, digitChar_toNat_of_lt hd]
    omega
  · intro h
    apply Eq.symm
    apply char_toNat_inj
    rw [digitChar_toNat_of_lt hd]
    omega

/-- The last two entries of an eleven-element list. -/
theorem drop_nine_of_length_eleven {l : List Char} (h : l.length = 11) :
    l.drop 9 = [l.getD 9 '0', l.getD 10 '0'] := by
  have h9 : 9 < l.length := by omega
  have h10 : 10 < l.length := by omega
  rw [List.drop_eq_getElem_cons h9, List.drop_eq_getElem_cons h10]
  rw [List.drop_eq_nil_of_le (by omega)]
  rw [List.getD_eq_getElem l _ h9, List.getD_eq_getElem l _ h10]

/-- C10 amended: the two CPF validators agree on every non-empty string
each of whose characters either is an ASCII digit or is kept by neither
strip (in particular, on every non-empty ASCII string): `validar_cpf s` is
true exactly when `validate_cpf s` returns a formatted CPF without raising.
Beyond the empty string (see `C10_counterexample`) they also disagree on
digit-typed non-decimal characters: at "52998224725²" the utils validator
accepts (the regex strip drops '²', leaving a valid 11-digit CPF) while the
schema validator raises the length error (`str.isdigit` keeps '²', making
twelve characters). -/
theorem C10_cpf_validators_agree :
    (∀ s : String, s ≠ "" →
      (∀ c ∈ s.toList, unicode_decimal_digit c = c.isDigit ∧
        python_str_isdigit c = c.isDigit) →
      (validar_cpf s = true ↔ (validate_cpf s).isOk = true)) ∧
    validar_cpf "52998224725²" = true ∧
    validate_cpf "52998224725²" = .error "CPF deve conter 11 dígitos numéricos." := by
  refine ⟨?_, by decide, by rfl⟩
  intro s hs hchars
  have hf1 : s.toList.filter unicode_decimal_digit = s.toList.filter Char.isDigit :=
    List.filter_congr (fun c hc => (hchars c hc).1)
  have hf2 : s.toList.filter python_str_isdigit = s.toList.filter Char.isDigit :=
    List.filter_congr (fun c hc => (hchars c hc).2)
  have hsbeq : (s == "") = false := by rwa [beq_eq_false_iff_ne]
  unfold validar_cpf validate_cpf
  rw [hf1, hf2]
  simp only [hsbeq, Bool.false_eq_true, if_false]
  by_cases hlen : (s.toList.filter Char.isDigit).length = 11
  case neg =>
    have hlen' : ¬ (List.filter Char.isDigit s.data).length = 11 := hlen
    simp [hlen', Except.isOk, Except.toBool]
  case pos =>
    simp only [hlen, ne_eq, not_true_eq_false, if_false]
    by_cases hall : ((s.toList.filter Char.isDigit).all
        (fun c => c == (s.toList.filter Char.isDigit).headI)) = true
    · rw [if_pos hall, if_pos hall]
      simp [Except.isOk, Except.toBool]
    · rw [Bool.not_eq_true] at hall
      simp only [hall, Bool.false_eq_true, if_false]
      have hw1 : ((List.range 9).map (fun i => 10 - i)) = [10, 9, 8, 7, 6, 5, 4, 3, 2] := by
        decide
      have hw2 : ((List.range 10).map (fun i => 11 - i)) =
          [11, 10, 9, 8, 7, 6, 5, 4, 3, 2] := by
        decide
      set l := s.toList.filter Char.isDigit with hl
      have hc9 : (l.getD 9 '0').isDigit = true := by
        have hmem : l.getD 9 '0' ∈ l := by
          rw [List.getD_eq_getElem l _ (by omega)]
          exact List.getElem_mem _
        exact (List.mem_filter.mp hmem).2
      have hc10 : (l.getD 10 '0').isDigit = true := by
        have hmem : l.getD 10 '0' ∈ l := by
          rw [List.getD_eq_getElem l _ (by omega)]
          exact List.getElem_mem _
        exact (List.mem_filter.mp hmem).2
      rw [hw1, hw2, drop_nine_of_length_eleven hlen]
      simp only [calcular_digito]
      set a1 := (List.zipWith (fun c p => (c.toNat - 48) * p) l
        [10, 9, 8, 7, 6, 5, 4, 3, 2]).sum with ha1
      set a2 := (List.zipWith (fun c p => (c.toNat - 48) * p) l
        [11, 10, 9, 8, 7, 6, 5, 4, 3, 2]).sum with ha2
      set d1 := (if a1 % 11 < 2 then 0 else 11 - a1 % 11) with hd1eq
      set d2 := (if a2 % 11 < 2 then 0 else 11 - a2 % 11) with hd2eq
      have hd1lt : d1 < 10 := by
        have : a1 % 11 < 11 := Nat.mod_lt _ (by norm_num)
        rw [hd1eq]
        split <;> omega
      have hd2lt : d2 < 10 := by
        have : a2 % 11 < 11 := Nat.mod_lt _ (by norm_num)
        rw [hd2eq]
        split <;> omega
      have e9 := digitChar_eq_iff_of_digit hd1lt hc9
      have e10 := digitChar_eq_iff_of_digit hd2lt hc10
      constructor
      · intro h
        rw [beq_iff_eq] at h
        have h1 : l.getD 9 '0' = Nat.digitChar d1 := by
          exact congrArg (fun x => x.getD 0 '0') h
        have h2 : l.getD 10 '0' = Nat.digitChar d2 := by
          exact congrArg (fun x => x.getD 1 '0') h
        have k1 := e9.mp h1
        have k2 := e10.mp h2
        rw [if_neg (not_not_intro k1), if_neg (not_not_intro k2)]
        rfl
      · intro h
        by_cases k1 : d1 = (l.getD 9 '0').toNat - 48
        · by_cases k2 : d2 = (l.getD 10 '0').toNat - 48
          · rw [beq_iff_eq, e9.mpr k1, e10.mpr k2]
          · rw [if_neg (not_not_intro k1), if_pos k2] at h
            simp [Except.isOk, Except.toBool] at h
        · rw [if_pos k1] at h
          simp [Except.isOk, Except.toBool] at h

/-- C10 counterexample: on the empty string the utils validator answers
false while the schema validator returns without raising, so the two
validators do not accept exactly the same inputs. -/
theorem C10_counterexample :
    ¬ (validar_cpf "" = true ↔ (validate_cpf "").isOk = true) := by
  decide

/-- C10 witness: the agreement theorem applied to a concrete valid ASCII
CPF, discharging the non-emptiness and character-domain hypotheses. -/
theorem C10_cpf_validators_witness :
    (validate_cpf "52998224725").isOk = true :=
  (C10_cpf_validators_agree.1 "52998224725" (by decide) (by decide)).mp (by decide)
